import Mathlib

/-!
Verification development for the nextjs-fastapi-starter chat frontend.

This file shallowly embeds the client-side logic of the repository:
the JavaScript value model used by the `any`-typed tool result payloads,
the `ToolResult` summary/detail renderers (`components/tools/ToolResult.tsx`,
`components/tools/*.tsx`, the inline copies in `app/page.tsx` and
`app/poc/page.tsx`), and the submission controller `handleSubmit` of
`app/page.tsx` and `app/poc/page.tsx`.

JavaScript dynamic values are modelled by the inductive `JVal`; a renderer
that can raise a `TypeError` (property access on a nullish base, calling an
array/string method on a value that lacks it) is modelled in
`Except JsErr`.  Browser-locale formatting (`toLocaleTimeString`) and float
formatting (`toExponential`) are abstracted as function parameters or kept
as raw values, since they never throw and no property below depends on
their output.
-/

set_option autoImplicit false

namespace NFS

/-- A JavaScript value, as produced by `JSON.parse` of a backend response or
written literally in the pages.  `undefined` is JavaScript `undefined` (the
result of reading an absent property). -/
inductive JVal where
  | undefined
  | null
  | bool (b : Bool)
  | num (n : Int)
  | str (s : String)
  | arr (elems : List JVal)
  | obj (fields : List (String × JVal))

/-- JavaScript truthiness (`NaN` is not modelled; `num` covers integral
numbers, which is all the repository's payloads use). -/
def truthy : JVal → Bool
  | .undefined => false
  | .null => false
  | .bool b => b
  | .num n => n != 0
  | .str s => s != ""
  | .arr _ => true
  | .obj _ => true

/-- Is the value `null` or `undefined`? -/
def JVal.isNullish : JVal → Bool
  | .undefined => true
  | .null => true
  | _ => false

/-- First-match field lookup in an object literal. -/
def lookupField : List (String × JVal) → String → JVal
  | [], _ => .undefined
  | (k, v) :: rest, key => if k == key then v else lookupField rest key

/-- Property read, before deciding how a nullish base is treated:
`none` means the base was nullish (plain access throws, `?.` yields
`undefined`).  Arrays and strings expose `length`; other primitives have no
own properties that the repository reads. -/
def propOf : JVal → String → Option JVal
  | .undefined, _ => none
  | .null, _ => none
  | .arr xs, k => some (if k == "length" then .num xs.length else .undefined)
  | .str s, k => some (if k == "length" then .num s.length else .undefined)
  | .obj fs, k => some (lookupField fs k)
  | _, _ => some .undefined

/-- The single JavaScript error kind the renderers can raise. -/
inductive JsErr where
  | typeError
deriving DecidableEq

/-- Plain property access `base.key`: throws `TypeError` on a nullish base. -/
def getPropE (v : JVal) (k : String) : Except JsErr JVal :=
  match propOf v k with
  | none => .error .typeError
  | some w => .ok w

/-- Optional-chain property access `base?.key`. -/
def optProp (v : JVal) (k : String) : JVal :=
  (propOf v k).getD .undefined

/-- Optional-chain index access `base?.[i]` (out-of-range reads give
`undefined`, as in JavaScript). -/
def optIndex (v : JVal) (i : Nat) : JVal :=
  match v with
  | .arr xs => (xs.get? i).getD .undefined
  | _ => .undefined

mutual

/-- String conversion as performed by template-literal interpolation
(`String(x)`): arrays join their elements with `","`, nullish elements
becoming empty, and plain objects print `[object Object]`. -/
def jsStr : JVal → String
  | .undefined => "undefined"
  | .null => "null"
  | .bool b => cond b "true" "false"
  | .num n => Int.repr n
  | .str s => s
  | .arr xs => jsStrList xs
  | .obj _ => "[object Object]"

def jsStrList : List JVal → String
  | [] => ""
  | [v] => jsStrElem v
  | v :: rest => jsStrElem v ++ "," ++ jsStrList rest

def jsStrElem : JVal → String
  | .undefined => ""
  | .null => ""
  | v => jsStr v

end

/-- JavaScript strict equality `===` on the primitive values the pages
compare (`unit === "celsius"`, `total_results !== 1`).  Distinct array or
object literals are never reference-equal, hence `false`. -/
def jsStrictEq : JVal → JVal → Bool
  | .undefined, .undefined => true
  | .null, .null => true
  | .bool a, .bool b => a == b
  | .num a, .num b => a == b
  | .str a, .str b => a == b
  | _, _ => false

/-- `v > k` for the numeric comparisons `…?.length > 0`: `undefined > 0` is
`false`, a number compares numerically (string coercion never arises here
because `length` is always a number when present). -/
def jsGtNum (v : JVal) (k : Int) : Bool :=
  match v with
  | .num n => k < n
  | _ => false

/-- Calling an array method (`.map`) elementwise: `TypeError` unless the
receiver is an array. -/
def jsMapE {α : Type} (f : JVal → Except JsErr α) : JVal → Except JsErr (List α)
  | .arr xs => xs.mapM f
  | _ => .error .typeError

/-- Calling a string method (`.replace`, `.split`, `.toLowerCase`) on a
non-string receiver throws. -/
def requireString : JVal → Except JsErr String
  | .str s => .ok s
  | _ => .error .typeError

/-- Does `needle` occur at the start of `hay`? -/
def charsPrefixOf : List Char → List Char → Bool
  | [], _ => true
  | _ :: _, [] => false
  | a :: as, b :: bs => a == b && charsPrefixOf as bs

/-- Does `needle` occur anywhere in `hay`? -/
def charsContainsAux (needle : List Char) : List Char → Bool
  | [] => charsPrefixOf needle []
  | c :: rest => charsPrefixOf needle (c :: rest) || charsContainsAux needle rest

/-- JavaScript `hay.includes(needle)` substring test. -/
def strContains (hay needle : String) : Bool :=
  charsContainsAux needle.toList hay.toList

/-- JavaScript `s.trim()` (agrees with the JS whitespace set on the ASCII
whitespace the pages can contain). -/
def jsTrim (s : String) : String :=
  String.mk (((s.toList.dropWhile Char.isWhitespace).reverse.dropWhile Char.isWhitespace).reverse)

/-- JavaScript `s.toLowerCase()` (ASCII, which covers the ClinVar
classification strings). -/
def jsToLower (s : String) : String :=
  String.mk (s.toList.map Char.toLower)

/-- JavaScript `s.replace(/,/g, "")`, used on genome coordinates. -/
def stripCommas (s : String) : String :=
  String.mk (s.toList.filter (fun c => c != ','))

/-! ## Tool result renderers

Each React component that renders a tool result payload is embedded as a
function from the payload `JVal` to an `Except JsErr` view value.  The view
records exactly the data the component displays; a `.error` result models
the component throwing a `TypeError` during render.  Content that the UI
library mounts only on user interaction (Radix `HoverCardContent`,
`TooltipContent`, the genome browser iframe behind its toggle) is not
evaluated at initial render and is therefore not forced here. -/

/-- The `variant` prop of the shadcn `Badge` chosen for a ClinVar
classification (`destructive`, `secondary`, `outline`). -/
inductive BadgeStyle where
  | destructive
  | secondary
  | outline
deriving DecidableEq

/-- The test `variant.clinical_significance?.toLowerCase().includes(kw)`:
a nullish significance short-circuits to `undefined` (falsy); a string is
lower-cased and searched; any other value throws on `.toLowerCase()`. -/
def sigKeywordTest (sig : JVal) (keyword : String) : Except JsErr Bool :=
  match sig with
  | .undefined => .ok false
  | .null => .ok false
  | .str s => .ok (strContains (jsToLower s) keyword)
  | _ => .error .typeError

/-- Badge style selection from `app/page.tsx` / `ClinVarResultContent.tsx`:
`"pathogenic"` keyword → destructive, else `"benign"` keyword → secondary,
else outline. -/
def classificationBadgeStyleE (sig : JVal) : Except JsErr BadgeStyle := do
  if ← sigKeywordTest sig "pathogenic" then
    pure .destructive
  else if ← sigKeywordTest sig "benign" then
    pure .secondary
  else
    pure .outline

/-- Badge label `variant.clinical_significance || "No Classification"`. -/
def classificationBadgeText (sig : JVal) : JVal :=
  if truthy sig then sig else .str "No Classification"

/-- One row of the population-frequency table: the source label
`freq.source.split("(")[0].trim()` and the raw frequency value (displayed
through `parseFloat(...).toExponential(2)`, which never throws). -/
structure FreqRow where
  sourceText : String
  frequencyVal : JVal

/-- The eagerly rendered parts of one ClinVar variant block. -/
structure VariantCard where
  titleVal : JVal
  badgeStyle : BadgeStyle
  badgeTextVal : JVal
  fdaShown : Bool
  conditions : List JVal
  freqRows : List FreqRow
  clinicalCountVal : JVal

/-- A rendered ClinVar detail view: either the not-found message paragraph
or the list of variant cards. -/
inductive ClinVarView where
  | notFound (message : JVal)
  | found (cards : List VariantCard)

/-- The classification badges shown by a ClinVar detail view. -/
def clinVarViewBadges : ClinVarView → List (BadgeStyle × JVal)
  | .notFound _ => []
  | .found cards => cards.map (fun c => (c.badgeStyle, c.badgeTextVal))

/-- One variant block of `ClinVarResultContent` (identical in
`app/page.tsx` and `components/tools/ClinVarResultContent.tsx`): title,
classification badge, FDA badge, associated-conditions tags (guarded by
`associated_conditions?.length > 0`), frequency table (guarded by
`allele_frequencies?.length > 0`), and the eager evidence count
`variant.supporting_submissions.clinical.length`.  The hover-card details
(review status, last evaluated, molecular consequences) mount only on
hover and are not forced. -/
def renderVariantCard (variant : JVal) : Except JsErr VariantCard := do
  let title ← getPropE variant "title"
  let sig ← getPropE variant "clinical_significance"
  let style ← classificationBadgeStyleE sig
  let fda ← getPropE variant "is_fda_recognized"
  let ac ← getPropE variant "associated_conditions"
  let conds ←
    if jsGtNum (optProp ac "length") 0 then
      jsMapE (fun c => getPropE c "name") ac
    else
      pure []
  let af ← getPropE variant "allele_frequencies"
  let freqs ←
    if jsGtNum (optProp af "length") 0 then
      jsMapE (fun f => do
        let src ← getPropE f "source"
        let s ← requireString src
        let freq ← getPropE f "frequency"
        pure (FreqRow.mk (jsTrim ((s.splitOn "(").headD "")) freq)) af
    else
      pure []
  let ss ← getPropE variant "supporting_submissions"
  let clinical ← getPropE ss "clinical"
  let count ← getPropE clinical "length"
  pure { titleVal := title, badgeStyle := style,
         badgeTextVal := classificationBadgeText sig,
         fdaShown := truthy fda, conditions := conds, freqRows := freqs,
         clinicalCountVal := count }

/-- `ClinVarResultContent` as written inline in `app/page.tsx`: the found
branch maps over `result.variants` with a plain (non-optional) member
access, so a missing `variants` array throws. -/
def ClinVarResultContentPage (result : JVal) : Except JsErr ClinVarView := do
  let found ← getPropE result "found"
  if ¬ truthy found then
    ClinVarView.notFound <$> getPropE result "message"
  else do
    let vs ← getPropE result "variants"
    ClinVarView.found <$> jsMapE renderVariantCard vs

/-- `ClinVarResultContent` from `components/tools/ClinVarResultContent.tsx`:
identical except the found branch maps with `result.variants?.map`, so a
nullish `variants` renders zero cards instead of throwing. -/
def ClinVarResultContentTools (result : JVal) : Except JsErr ClinVarView := do
  let found ← getPropE result "found"
  if ¬ truthy found then
    ClinVarView.notFound <$> getPropE result "message"
  else do
    let vs ← getPropE result "variants"
    if vs.isNullish then
      pure (ClinVarView.found [])
    else
      ClinVarView.found <$> jsMapE renderVariantCard vs

/-- The eagerly rendered fields of one PubMed study card (the abstract
shows only inside the hover card). -/
structure StudyCard where
  pmidText : String
  titleVal : JVal
  journalVal : JVal
  yearVal : JVal

/-- A rendered PubMed detail view: the `"No studies found."` paragraph or
the study cards. -/
inductive PubmedView where
  | message (text : String)
  | cards (cards : List StudyCard)

/-- `PubmedResultContent` (identical in `app/page.tsx` and
`components/tools/PubmedResultContent.tsx`): empty or absent
`result.studies` yields the `"No studies found."` paragraph, otherwise one
card per study in order. -/
def PubmedResultContentR (result : JVal) : Except JsErr PubmedView := do
  let studies ← getPropE result "studies"
  if ¬ truthy (optProp studies "length") then
    pure (PubmedView.message "No studies found.")
  else
    PubmedView.cards <$> jsMapE (fun study => do
      let pmid ← getPropE study "pmid"
      let title ← getPropE study "title"
      let journal ← getPropE study "journal"
      let year ← getPropE study "year"
      pure (StudyCard.mk (jsStr pmid) title journal year)) studies

/-- The rendered weather card of `WeatherResult`. -/
structure WeatherView where
  tempText : String
  elevationText : String
  locationText : String

/-- `WeatherResult` (`components/tools/WeatherResult.tsx` and the inline
copies): temperature plus `°C`/`°F` from the strict comparison
`result.unit === "celsius"`, then elevation and coordinates. -/
def WeatherResultR (result : JVal) : Except JsErr WeatherView := do
  let t ← getPropE result "temperature"
  let u ← getPropE result "unit"
  let e ← getPropE result "elevation"
  let c ← getPropE result "coordinates"
  let lat ← getPropE c "lat"
  let lon ← getPropE c "lon"
  pure { tempText := jsStr t ++ "°" ++ (if jsStrictEq u (.str "celsius") then "C" else "F"),
         elevationText := "Elevation: " ++ jsStr e ++ "m",
         locationText := "Location: " ++ jsStr lat ++ ", " ++ jsStr lon }

/-- The rendered time card of `TimeResult`; `localeTime` abstracts
`new Date(x).toLocaleTimeString()`, which never throws. -/
structure TimeView where
  timeText : String
  timezoneVal : JVal

/-- `TimeResult` (`components/tools/TimeResult.tsx` and inline copies). -/
def TimeResultR (localeTime : JVal → String) (result : JVal) : Except JsErr TimeView := do
  let t ← getPropE result "time"
  let tz ← getPropE result "timezone"
  pure { timeText := localeTime t, timezoneVal := tz }

/-- The rendered search card of `SearchResult`. -/
structure SearchView where
  queryText : String
  items : List (JVal × JVal × JVal)

/-- `SearchResult`: quoted query plus one (link, title, snippet) row per
entry of `result.results`. -/
def SearchResultR (result : JVal) : Except JsErr SearchView := do
  let q ← getPropE result "query"
  let rs ← getPropE result "results"
  let items ← jsMapE (fun item => do
    let link ← getPropE item "link"
    let title ← getPropE item "title"
    let snippet ← getPropE item "snippet"
    pure (link, title, snippet)) rs
  pure { queryText := jsStr q, items := items }

/-- The rendered website card of `WebsiteResult`. -/
structure WebsiteView where
  urlVal : JVal
  headerVal : JVal
  descriptionShown : Bool
  descriptionVal : JVal
  contentVal : JVal

/-- `WebsiteResult`: header `result.title || result.url`, optional
description, raw page content. -/
def WebsiteResultR (result : JVal) : Except JsErr WebsiteView := do
  let url ← getPropE result "url"
  let title ← getPropE result "title"
  let desc ← getPropE result "description"
  let content ← getPropE result "content"
  pure { urlVal := url, headerVal := if truthy title then title else url,
         descriptionShown := truthy desc, descriptionVal := desc,
         contentVal := content }

/-- The UCSC genome-browser URL built from comma-stripped coordinates. -/
def genomeBrowserUrlFor (cleaned : String) : String :=
  "https://genome.ucsc.edu/cgi-bin/hgTracks?db=hg38&position=" ++ cleaned

/-- The rendered state of `GenomeBrowserContent`
(`components/tools/GenomeBrowserContent.tsx`): collapsed until the user
presses the toggle, an iframe with the coordinate URL once shown. -/
inductive GenomeView where
  | collapsed
  | browserFrame (url : String)

/-- `GenomeBrowserContent`: `result.coordinates.replace(/,/g, "")` is only
evaluated once `showBrowser` is true (the initial state is `false`). -/
def GenomeBrowserContentR (showBrowser : Bool) (result : JVal) : Except JsErr GenomeView := do
  if showBrowser then
    let c ← getPropE result "coordinates"
    let s ← requireString c
    pure (GenomeView.browserFrame (genomeBrowserUrlFor (stripCommas s)))
  else
    pure GenomeView.collapsed

/-- The detail view produced by `ToolResult.renderContent`
(`components/tools/ToolResult.tsx`). -/
inductive ToolView where
  | weather (v : WeatherView)
  | time (v : TimeView)
  | search (v : SearchView)
  | website (v : WebsiteView)
  | pubmed (v : PubmedView)
  | clinvar (v : ClinVarView)
  | genome (v : GenomeView)
  | jsonDump (v : JVal)

/-- `getSummary` of `components/tools/ToolResult.tsx`: the collapsed
one-line summary per tool name; the ClinVar not-found branch returns the
raw `result.message` value, all other branches build template strings.
Unrecognized tools fall to `"Results available"`. -/
def getSummary (localeTime : JVal → String) (tool : String) (result : JVal) : Except JsErr JVal :=
  if tool = "get_pubmed_studies" then do
    let studies ← getPropE result "studies"
    if truthy (optProp studies "length") then do
      let s2 ← getPropE result "studies"
      let len ← getPropE s2 "length"
      let q ← getPropE result "query"
      pure (.str (jsStr len ++ " studies found" ++
        (if truthy q then " for \"" ++ jsStr q ++ "\"" else "")))
    else
      pure (.str "No studies found")
  else if tool = "get_clinvar_data" then do
    let found ← getPropE result "found"
    if ¬ truthy found then
      getPropE result "message"
    else do
      let vs ← getPropE result "variants"
      let sig := optProp (optIndex vs 0) "clinical_significance"
      let tr ← getPropE result "total_results"
      pure (.str (jsStr tr ++ " variant" ++
        (if ¬ jsStrictEq tr (.num 1) then "s" else "") ++ " found" ++
        (if truthy sig then " • " ++ jsStr sig else "")))
  else if tool = "genome_browser" then do
    let g ← getPropE result "gene"
    let c ← getPropE result "coordinates"
    pure (.str (jsStr g ++ " • " ++ jsStr c))
  else if tool = "get_weather" then do
    let t ← getPropE result "temperature"
    let u ← getPropE result "unit"
    pure (.str ("Weather: " ++ jsStr t ++ "°" ++
      (if jsStrictEq u (.str "celsius") then "C" else "F")))
  else if tool = "get_time" then do
    let t ← getPropE result "time"
    pure (.str ("Time: " ++ localeTime t))
  else if tool = "search" then do
    let q ← getPropE result "query"
    pure (.str ("Search: \"" ++ jsStr q ++ "\""))
  else if tool = "get_website" then do
    let title ← getPropE result "title"
    let url ← getPropE result "url"
    pure (.str ("Website: " ++ jsStr (if truthy title then title else url)))
  else
    pure (.str "Results available")

/-- `renderContent` of `components/tools/ToolResult.tsx`: dispatch on the
tool name, falling through to the pretty-printed JSON dump of the raw
payload (`JSON.stringify(result, null, 2)`, which cannot throw on a
`JVal`). -/
def renderContent (localeTime : JVal → String) (tool : String) (result : JVal) : Except JsErr ToolView :=
  if tool = "get_weather" then ToolView.weather <$> WeatherResultR result
  else if tool = "get_time" then ToolView.time <$> TimeResultR localeTime result
  else if tool = "search" then ToolView.search <$> SearchResultR result
  else if tool = "get_website" then ToolView.website <$> WebsiteResultR result
  else if tool = "get_pubmed_studies" then ToolView.pubmed <$> PubmedResultContentR result
  else if tool = "get_clinvar_data" then ToolView.clinvar <$> ClinVarResultContentTools result
  else if tool = "genome_browser" then ToolView.genome <$> GenomeBrowserContentR false result
  else pure (ToolView.jsonDump result)

/-- The tool names `ToolResult` recognizes with a dedicated branch. -/
def knownTool (t : String) : Bool :=
  t == "get_weather" || t == "get_time" || t == "search" || t == "get_website" ||
  t == "get_pubmed_studies" || t == "get_clinvar_data" || t == "genome_browser"

/-! ## Transcript entries and the poc page's correlated rendering -/

/-- A transcript entry (`Message` in `app/page.tsx` / `app/poc/page.tsx`):
absent optional fields are `none` / `undefined`. -/
structure Msg where
  role : String
  type : String
  content : Option String := none
  tool : Option String := none
  id : Option String := none
  arguments : JVal := .undefined
  result : JVal := .undefined

/-- The linear scan `conversation.find((m) => m.type === "tool_use" &&
m.id === msg.id)` correlating a result with its invocation. -/
def findToolUse (conversation : List Msg) (mid : Option String) : Option Msg :=
  conversation.find? (fun m => m.type == "tool_use" && m.id == mid)

/-- The object `{...msg.result, query}` handed to the poc `PubmedResult`:
the later `query` key shadows any `query` own-property of the spread
(first-match lookup, so it is prepended); spreading a non-object
contributes no property the component reads. -/
def spreadWithQuery (result q : JVal) : JVal :=
  match result with
  | .obj fs => .obj (("query", q) :: fs)
  | _ => .obj [("query", q)]

/-- The poc `PubmedResult` card: optional query badge, then either one row
per study (when `result.studies && result.studies.length > 0`) or the
`"No studies found."` paragraph (`rows = none`). -/
structure PocPubmedView where
  queryShown : Bool
  queryVal : JVal
  rows : Option (List StudyCard)

/-- `PubmedResult` of `app/poc/page.tsx`. -/
def PubmedResultPoc (result : JVal) : Except JsErr PocPubmedView := do
  let q ← getPropE result "query"
  let studies ← getPropE result "studies"
  if truthy studies then do
    let len ← getPropE studies "length"
    if jsGtNum len 0 then
      (fun rows => PocPubmedView.mk (truthy q) q (some rows)) <$>
        jsMapE (fun study => do
          let pmid ← getPropE study "pmid"
          let title ← getPropE study "title"
          let journal ← getPropE study "journal"
          let year ← getPropE study "year"
          pure (StudyCard.mk (jsStr pmid) title journal year)) studies
    else
      pure (PocPubmedView.mk (truthy q) q none)
  else
    pure (PocPubmedView.mk (truthy q) q none)

/-- The poc `GenomeBrowserViewer` in its initial state (summary tab):
gene label, coordinate text, the eagerly computed browser URL, and one row
per entry of `variants`. -/
structure PocGenomeView where
  geneVal : JVal
  coordinatesText : String
  browserUrl : String
  variantRows : List (JVal × JVal)

/-- `GenomeBrowserViewer` of `app/poc/page.tsx`: the component body runs
`coordinates.replace(/,/g, "")` unconditionally and the initial summary
tab maps over `variants`, so nullish props throw. -/
def GenomeBrowserViewerR (coordinates gene variants : JVal) : Except JsErr PocGenomeView := do
  let c ← requireString coordinates
  let rows ← jsMapE (fun v => do
    let p ← getPropE v "position"
    let a ← getPropE v "allele"
    pure (p, a)) variants
  pure { geneVal := gene, coordinatesText := c,
         browserUrl := genomeBrowserUrlFor (stripCommas c), variantRows := rows }

/-- A rendered `tool_result` entry of the poc page. -/
inductive PocView where
  | pubmed (v : PocPubmedView)
  | genome (v : PocGenomeView)
  | weather (v : WeatherView)
  | time (v : TimeView)
  | search (v : SearchView)
  | website (v : WebsiteView)
  | jsonDump (v : JVal)

/-- The `tool_result` branch of `renderMessage` in `app/poc/page.tsx`:
PubMed and genome results correlate with their `tool_use` entry by `id`
(`toolUseMsg?.arguments?.query` resp. `{...toolUseMsg?.arguments}`),
the remaining known tools render the payload directly, and everything else
falls to the JSON dump. -/
def pocRenderToolResult (localeTime : JVal → String) (conversation : List Msg)
    (msg : Msg) : Except JsErr PocView :=
  if msg.tool == some "get_pubmed_studies" then
    let toolUseMsg := findToolUse conversation msg.id
    let query := match toolUseMsg with
      | none => JVal.undefined
      | some t => optProp t.arguments "query"
    PocView.pubmed <$> PubmedResultPoc (spreadWithQuery msg.result query)
  else if msg.tool == some "genome_browser" then
    let toolUseMsg := findToolUse conversation msg.id
    let args := match toolUseMsg with
      | none => JVal.undefined
      | some t => t.arguments
    PocView.genome <$>
      GenomeBrowserViewerR (optProp args "coordinates") (optProp args "gene")
        (optProp args "variants")
  else if msg.tool == some "get_weather" then PocView.weather <$> WeatherResultR msg.result
  else if msg.tool == some "get_time" then PocView.time <$> TimeResultR localeTime msg.result
  else if msg.tool == some "google_search" then PocView.search <$> SearchResultR msg.result
  else if msg.tool == some "read_website" then PocView.website <$> WebsiteResultR msg.result
  else pure (PocView.jsonDump msg.result)

/-- The tool names the poc `tool_result` branch recognizes. -/
def pocKnownTool (t : Option String) : Bool :=
  t == some "get_pubmed_studies" || t == some "genome_browser" ||
  t == some "get_weather" || t == some "get_time" ||
  t == some "google_search" || t == some "read_website"

/-! ## The submission controller -/

/-- The page state touched by `handleSubmit`: the conversation store, the
loading flag, and the input box text. -/
structure ChatState where
  conversation : List Msg
  isLoading : Bool
  message : String

/-- A rejection caught by the `catch` block of `app/page.tsx`: the thrown
error's `name` and `message` (an `AbortError` for the 60-second timeout, a
`TypeError` whose message contains `"fetch"` for a network failure). -/
structure FetchError where
  name : String
  message : String

/-- The outcome of the awaited `fetch`/`json` sequence: a parsed body, a
rejected promise, or a response with `ok = false`. -/
inductive FetchOutcome where
  | success (body : List Msg)
  | reject (e : FetchError)
  | badStatus (status : Nat)

/-- The timeout-specific error text of `app/page.tsx`. -/
def timeoutErrorText : String :=
  "The request took too long to complete. Please try again."

/-- The network error text of `app/page.tsx`. -/
def networkErrorText : String :=
  "Network error. Please check your connection and try again."

/-- The generic error text of `app/page.tsx` (also the only error text of
`app/poc/page.tsx`). -/
def genericErrorText : String :=
  "Sorry, there was an error processing your request."

/-- The message of the error thrown on a non-ok HTTP response. -/
def httpErrorMessage (status : Nat) : String :=
  "HTTP error! status: " ++ Nat.repr status

/-- The error-classification of the catch block in `app/page.tsx`:
`AbortError` → timeout text, else a message containing `"fetch"` →
network text, else the generic text. -/
def errorMessageFor (e : FetchError) : String :=
  if e.name = "AbortError" then timeoutErrorText
  else if strContains e.message "fetch" then networkErrorText
  else genericErrorText

/-- The optimistic `{ role: "user", type: "message", content: message }`
entry. -/
def userEntry (text : String) : Msg :=
  { role := "user", type := "message", content := some text }

/-- The synthetic `{ role: "assistant", type: "message", content:
errorMessage }` entry appended on failure. -/
def assistantEntry (text : String) : Msg :=
  { role := "assistant", type := "message", content := some text }

/-- The observable result of one `handleSubmit` run: the final state,
whether a request was issued, and whether the loading flag was ever set. -/
structure SubmitResult where
  state : ChatState
  requestIssued : Bool
  loadingWasSet : Bool

/-- `handleSubmit` of `app/page.tsx`: a blank-trimming guard, the
optimistic user append, one fetch bounded by a 60-second abort timer, then
either `[...prev, ...data.conversation.slice(1)]` on success or a single
synthetic assistant entry on failure; loading is cleared and the input
reset on every completed run. -/
def handleSubmit (st : ChatState) (outcome : FetchOutcome) : SubmitResult :=
  if jsTrim st.message = "" then
    ⟨st, false, false⟩
  else
    let conv1 := st.conversation ++ [userEntry st.message]
    let conv2 :=
      match outcome with
      | .success body => conv1 ++ body.drop 1
      | .reject e => conv1 ++ [assistantEntry (errorMessageFor e)]
      | .badStatus status =>
          conv1 ++ [assistantEntry (errorMessageFor ⟨"Error", httpErrorMessage status⟩)]
    ⟨⟨conv2, false, ""⟩, true, true⟩

/-- The outcome of the poc page's fetch (no timeout, no `ok` check). -/
inductive PocOutcome where
  | success (body : List Msg)
  | failure

/-- `handleSubmit` of `app/poc/page.tsx`: identical shape, with a single
generic error text. -/
def pocHandleSubmit (st : ChatState) (outcome : PocOutcome) : SubmitResult :=
  if jsTrim st.message = "" then
    ⟨st, false, false⟩
  else
    let conv1 := st.conversation ++ [userEntry st.message]
    let conv2 :=
      match outcome with
      | .success body => conv1 ++ body.drop 1
      | .failure => conv1 ++ [assistantEntry genericErrorText]
    ⟨⟨conv2, false, ""⟩, true, true⟩

/-! ## Theorems -/

/-- Helper: `jsStr` renders an integral number through `Int.repr`. -/
theorem jsStr_num (n : Int) : jsStr (.num n) = Int.repr n := by
  simp [jsStr]

/-- Helper: a natural number renders through `Nat.repr`. -/
theorem int_repr_natCast (n : Nat) : Int.repr (n : Int) = Nat.repr n := rfl

/-- Helper: `jsStr` is the identity on strings. -/
theorem jsStr_str (s : String) : jsStr (.str s) = s := by
  simp [jsStr]

/-- C2: a successful submission appends exactly the returned transcript
list with its first element removed (`slice(1)`), in order, after the
optimistic user entry — in both `app/page.tsx` and `app/poc/page.tsx`. -/
theorem submit_success_appends_tail_of_response (st : ChatState) (body : List Msg)
    (h : jsTrim st.message ≠ "") :
    (handleSubmit st (.success body)).state.conversation
      = st.conversation ++ [userEntry st.message] ++ body.drop 1 ∧
    (pocHandleSubmit st (.success body)).state.conversation
      = st.conversation ++ [userEntry st.message] ++ body.drop 1 := by
  constructor <;> simp [handleSubmit, pocHandleSubmit, h]

/-- C2 witness: a concrete successful submission. -/
theorem submit_success_appends_tail_of_response_witness :
    jsTrim "hi" ≠ "" ∧
    (handleSubmit ⟨[], false, "hi"⟩
        (.success [userEntry "hi", assistantEntry "ok"])).state.conversation
      = [userEntry "hi", assistantEntry "ok"] := by
  have h : jsTrim "hi" ≠ "" := by decide
  refine ⟨h, ?_⟩
  have hmain := submit_success_appends_tail_of_response ⟨[], false, "hi"⟩
    [userEntry "hi", assistantEntry "ok"] h
  simpa using hmain.1

/-- C3: every failed submission (rejection, including the 60-second abort,
or non-ok HTTP status) appends exactly one synthetic assistant/message
entry carrying the classified error text, the timeout text is distinct
from the generic and network texts, and the loading flag ends false. -/
theorem submit_failure_appends_single_error_entry (st : ChatState) (e : FetchError)
    (status : Nat) (h : jsTrim st.message ≠ "") :
    (handleSubmit st (.reject e)).state.conversation
      = st.conversation ++ [userEntry st.message, assistantEntry (errorMessageFor e)] ∧
    (handleSubmit st (.reject e)).state.isLoading = false ∧
    (handleSubmit st (.badStatus status)).state.conversation
      = st.conversation ++
          [userEntry st.message,
           assistantEntry (errorMessageFor ⟨"Error", httpErrorMessage status⟩)] ∧
    (handleSubmit st (.badStatus status)).state.isLoading = false ∧
    (e.name = "AbortError" → errorMessageFor e = timeoutErrorText) ∧
    (e.name ≠ "AbortError" → strContains e.message "fetch" = true →
      errorMessageFor e = networkErrorText) ∧
    timeoutErrorText ≠ genericErrorText ∧
    timeoutErrorText ≠ networkErrorText ∧
    networkErrorText ≠ genericErrorText := by
  refine ⟨?_, ?_, ?_, ?_, ?_, ?_, ?_, ?_, ?_⟩
  · simp [handleSubmit, h]
  · simp [handleSubmit, h]
  · simp [handleSubmit, h]
  · simp [handleSubmit, h]
  · intro hn; simp [errorMessageFor, hn]
  · intro hn hf; simp [errorMessageFor, hn, hf]
  · decide
  · decide
  · decide

/-- C3 witness: a concrete timed-out submission. -/
theorem submit_failure_appends_single_error_entry_witness :
    jsTrim "hi" ≠ "" ∧
    (handleSubmit ⟨[], false, "hi"⟩
        (.reject ⟨"AbortError", "signal is aborted"⟩)).state.conversation
      = [userEntry "hi", assistantEntry timeoutErrorText] ∧
    (handleSubmit ⟨[], false, "hi"⟩
        (.reject ⟨"AbortError", "signal is aborted"⟩)).state.isLoading = false := by
  have h : jsTrim "hi" ≠ "" := by decide
  have hmain := submit_failure_appends_single_error_entry ⟨[], false, "hi"⟩
    ⟨"AbortError", "signal is aborted"⟩ 500 h
  have habort : errorMessageFor ⟨"AbortError", "signal is aborted"⟩ = timeoutErrorText :=
    hmain.2.2.2.2.1 rfl
  have h1 := hmain.1
  rw [habort] at h1
  refine ⟨h, ?_, hmain.2.1⟩
  simpa using h1

/-- C4: both submission controllers only ever append to the conversation
store: the previous entries survive unchanged as a prefix, and the new
store is the old one followed by some suffix. -/
theorem conversation_store_append_only (st : ChatState) (o : FetchOutcome) (po : PocOutcome) :
    (handleSubmit st o).state.conversation.take st.conversation.length = st.conversation ∧
    (pocHandleSubmit st po).state.conversation.take st.conversation.length = st.conversation ∧
    (∃ t, (handleSubmit st o).state.conversation = st.conversation ++ t) ∧
    (∃ t, (pocHandleSubmit st po).state.conversation = st.conversation ++ t) := by
  have h1 : ∃ t, (handleSubmit st o).state.conversation = st.conversation ++ t := by
    by_cases h : jsTrim st.message = ""
    · exact ⟨[], by simp [handleSubmit, h]⟩
    · cases o with
      | success body =>
          exact ⟨userEntry st.message :: body.tail, by simp [handleSubmit, h]⟩
      | reject e =>
          exact ⟨[userEntry st.message, assistantEntry (errorMessageFor e)],
            by simp [handleSubmit, h]⟩
      | badStatus status =>
          exact ⟨[userEntry st.message,
            assistantEntry (errorMessageFor ⟨"Error", httpErrorMessage status⟩)],
            by simp [handleSubmit, h]⟩
  have h2 : ∃ t, (pocHandleSubmit st po).state.conversation = st.conversation ++ t := by
    by_cases h : jsTrim st.message = ""
    · exact ⟨[], by simp [pocHandleSubmit, h]⟩
    · cases po with
      | success body =>
          exact ⟨userEntry st.message :: body.tail, by simp [pocHandleSubmit, h]⟩
      | failure =>
          exact ⟨[userEntry st.message, assistantEntry genericErrorText],
            by simp [pocHandleSubmit, h]⟩
  obtain ⟨t1, ht1⟩ := h1
  obtain ⟨t2, ht2⟩ := h2
  refine ⟨?_, ?_, ⟨t1, ht1⟩, ⟨t2, ht2⟩⟩
  · rw [ht1]; exact List.take_left _ _
  · rw [ht2]; exact List.take_left _ _

/-- C9: a submission whose input trims to the empty string is a no-op in
both pages: state unchanged, no request issued, loading never set. -/
theorem blank_submit_is_noop (st : ChatState) (o : FetchOutcome) (po : PocOutcome)
    (h : jsTrim st.message = "") :
    handleSubmit st o = ⟨st, false, false⟩ ∧ pocHandleSubmit st po = ⟨st, false, false⟩ := by
  constructor <;> simp [handleSubmit, pocHandleSubmit, h]

/-- C9 witness: a whitespace-only submission. -/
theorem blank_submit_is_noop_witness :
    jsTrim "   " = "" ∧
    handleSubmit ⟨[], false, "   "⟩ (.badStatus 500) = ⟨⟨[], false, "   "⟩, false, false⟩ := by
  have h : jsTrim "   " = "" := by decide
  exact ⟨h, (blank_submit_is_noop ⟨[], false, "   "⟩ (.badStatus 500) PocOutcome.failure h).1⟩

/-- C1: evaluation at the failing inputs.  The `app/page.tsx` ClinVar
detail renderer throws a `TypeError` on `{found: true}` with no `variants`
field (`result.variants.map` on `undefined`), and a `genome_browser`
`tool_result` with no matching `tool_use` entry throws in the poc page
(`coordinates.replace` on `undefined`) — while the defensive
`components/tools` ClinVar copy and the poc PubMed branch degrade
gracefully on the very same inputs. -/
theorem clinvar_missing_variants_and_unmatched_genome_use_throw :
    ClinVarResultContentPage (.obj [("found", .bool true)]) = .error .typeError ∧
    pocRenderToolResult (fun _ => "") []
        { role := "tool_result", type := "tool_result", tool := some "genome_browser",
          id := some "genome_1", result := .obj [("gene", .str "BRCA1")] }
      = .error .typeError ∧
    ClinVarResultContentTools (.obj [("found", .bool true)]) = .ok (.found []) ∧
    pocRenderToolResult (fun _ => "") []
        { role := "tool_result", type := "tool_result", tool := some "get_pubmed_studies",
          id := some "pubmed_1", result := .obj [("studies", .arr [])] }
      = .ok (.pubmed ⟨false, .undefined, none⟩) :=
  ⟨rfl, rfl, rfl, rfl⟩

/-- C5 counterexample: a query field that is present but empty is dropped
from the summary (the code tests truthiness, not presence), so the summary
is `"1 studies found"` and not `"1 studies found for \"\""`. -/
theorem pubmed_summary_present_empty_query_counterexample :
    getSummary (fun _ => "") "get_pubmed_studies"
        (.obj [("studies", .arr [.obj []]), ("query", .str "")])
      = .ok (.str "1 studies found") ∧
    ("1 studies found" : String) ≠ "1 studies found for \"\"" := by
  constructor
  · have h1 : getSummary (fun _ => "") "get_pubmed_studies"
        (.obj [("studies", .arr [.obj []]), ("query", .str "")])
        = .ok (.str (jsStr (.num 1) ++ " studies found" ++ "")) := rfl
    rw [h1, jsStr_num]
    rfl
  · decide

/-- C5 (amended): for a non-empty studies list the summary is
`"<N> studies found"` with the quoted query appended exactly when the
query field is truthy (present and non-empty); an empty or absent studies
list gives `"No studies found"`, and the detail view then shows only the
`"No studies found."` paragraph and no study cards. -/
theorem pubmed_summary_amended (localeTime : JVal → String) (xs : List JVal) (q : JVal)
    (hxs : xs ≠ []) :
    getSummary localeTime "get_pubmed_studies" (.obj [("studies", .arr xs), ("query", q)])
      = .ok (.str (Nat.repr xs.length ++ " studies found" ++
          (if truthy q then " for \"" ++ jsStr q ++ "\"" else ""))) ∧
    getSummary localeTime "get_pubmed_studies" (.obj [("studies", .arr []), ("query", q)])
      = .ok (.str "No studies found") ∧
    getSummary localeTime "get_pubmed_studies" (.obj []) = .ok (.str "No studies found") ∧
    PubmedResultContentR (.obj [("studies", .arr [])]) = .ok (.message "No studies found.") ∧
    PubmedResultContentR (.obj []) = .ok (.message "No studies found.") := by
  refine ⟨?_, rfl, rfl, rfl, rfl⟩
  cases xs with
  | nil => exact absurd rfl hxs
  | cons a as =>
    have htr : truthy (JVal.num ((a :: as).length : Int)) = true := by
      simp [truthy]
      omega
    have step : getSummary localeTime "get_pubmed_studies"
        (.obj [("studies", .arr (a :: as)), ("query", q)])
        = if truthy (JVal.num ((a :: as).length : Int)) = true
          then .ok (.str (jsStr (.num ((a :: as).length : Int)) ++ " studies found" ++
            (if truthy q then " for \"" ++ jsStr q ++ "\"" else "")))
          else .ok (.str "No studies found") := rfl
    rw [step, if_pos htr, jsStr_num, int_repr_natCast]

/-- C5 witness: three studies and a non-empty query. -/
theorem pubmed_summary_amended_witness :
    ([JVal.obj [], JVal.obj [], JVal.obj []] ≠ ([] : List JVal)) ∧
    getSummary (fun _ => "") "get_pubmed_studies"
        (.obj [("studies", .arr [.obj [], .obj [], .obj []]), ("query", .str "TP53")])
      = .ok (.str "3 studies found for \"TP53\"") := by
  have h : [JVal.obj [], JVal.obj [], JVal.obj []] ≠ ([] : List JVal) := by simp
  refine ⟨h, ?_⟩
  have hmain := (pubmed_summary_amended (fun _ => "")
    [JVal.obj [], JVal.obj [], JVal.obj []] (.str "TP53") h).1
  rw [hmain, jsStr_str]
  rfl

/-- C6: a ClinVar lookup with `found = false` summarizes as exactly the
payload's message, and the detail view (both copies) shows exactly that
message and no classification badges. -/
theorem clinvar_not_found_shows_message_no_badges (localeTime : JVal → String) (m : String) :
    getSummary localeTime "get_clinvar_data"
        (.obj [("found", .bool false), ("message", .str m)]) = .ok (.str m) ∧
    ClinVarResultContentPage (.obj [("found", .bool false), ("message", .str m)])
      = .ok (.notFound (.str m)) ∧
    ClinVarResultContentTools (.obj [("found", .bool false), ("message", .str m)])
      = .ok (.notFound (.str m)) ∧
    clinVarViewBadges (.notFound (.str m)) = [] :=
  ⟨rfl, rfl, rfl, rfl⟩

/-- C7 counterexample: the rendered collapsed summary for a weather result
is `"Weather: 20°C"`, not the bare `"20°C"` the claim requires (`with no
other text` fails because of the `"Weather: "` prefix). -/
theorem weather_summary_prefix_counterexample :
    getSummary (fun _ => "") "get_weather"
        (.obj [("temperature", .num 20), ("unit", .str "celsius")])
      = .ok (.str "Weather: 20°C") ∧
    ("Weather: 20°C" : String) ≠ "20°C" := by
  constructor
  · have h1 : getSummary (fun _ => "") "get_weather"
        (.obj [("temperature", .num 20), ("unit", .str "celsius")])
        = .ok (.str ("Weather: " ++ jsStr (.num 20) ++ "°" ++ "C")) := rfl
    rw [h1, jsStr_num]
    rfl
  · decide

/-- C7 (amended): the weather summary is `"Weather: <temp>°<unit>"` with
the unit symbol `C` exactly when the unit field strictly equals
`"celsius"` and `F` otherwise; the `WeatherResult` detail card's
temperature text is exactly `"<temp>°<unit>"` with no prefix. -/
theorem weather_summary_amended (localeTime : JVal → String) (t u e lat lon : JVal) :
    getSummary localeTime "get_weather" (.obj [("temperature", t), ("unit", u)])
      = .ok (.str ("Weather: " ++ jsStr t ++ "°" ++
          (if jsStrictEq u (.str "celsius") then "C" else "F"))) ∧
    WeatherResultR (.obj [("temperature", t), ("unit", u), ("elevation", e),
        ("coordinates", .obj [("lat", lat), ("lon", lon)])])
      = .ok { tempText := jsStr t ++ "°" ++ (if jsStrictEq u (.str "celsius") then "C" else "F"),
              elevationText := "Elevation: " ++ jsStr e ++ "m",
              locationText := "Location: " ++ jsStr lat ++ ", " ++ jsStr lon } :=
  ⟨rfl, rfl⟩

/-- C8: a tool name outside the recognized set always falls through to the
summary `"Results available"` and the generic pretty-printed dump of the
raw payload, without throwing, for every payload value — in the shared
`ToolResult` component and in the poc page's dispatch. -/
theorem unknown_tool_generic_dump (localeTime : JVal → String) (tool : String) (result : JVal)
    (conversation : List Msg) (msg : Msg)
    (h : knownTool tool = false) (hp : pocKnownTool msg.tool = false) :
    getSummary localeTime tool result = .ok (.str "Results available") ∧
    renderContent localeTime tool result = .ok (.jsonDump result) ∧
    pocRenderToolResult localeTime conversation msg = .ok (.jsonDump msg.result) := by
  simp only [knownTool, Bool.or_eq_false_iff, beq_eq_false_iff_ne] at h
  simp only [pocKnownTool, Bool.or_eq_false_iff, beq_eq_false_iff_ne] at hp
  obtain ⟨⟨⟨⟨⟨⟨h1, h2⟩, h3⟩, h4⟩, h5⟩, h6⟩, h7⟩ := h
  obtain ⟨⟨⟨⟨⟨p1, p2⟩, p3⟩, p4⟩, p5⟩, p6⟩ := hp
  refine ⟨?_, ?_, ?_⟩
  · simp [getSummary, h1, h2, h3, h4, h5, h6, h7]
    rfl
  · simp [renderContent, h1, h2, h3, h4, h5, h6, h7]
    rfl
  · simp [pocRenderToolResult, p1, p2, p3, p4, p5, p6]
    rfl

/-- C8 witness: an unrecognized tool name with a concrete payload. -/
theorem unknown_tool_generic_dump_witness :
    knownTool "mystery_tool" = false ∧
    getSummary (fun _ => "") "mystery_tool" (.obj [("x", .num 1)])
      = .ok (.str "Results available") := by
  have h : knownTool "mystery_tool" = false := by decide
  have hp : pocKnownTool (some "mystery_tool") = false := by decide
  exact ⟨h, (unknown_tool_generic_dump (fun _ => "") "mystery_tool" (.obj [("x", .num 1)]) []
    { role := "system", type := "tool_result", tool := some "mystery_tool" } h hp).1⟩

/-- C10: the ClinVar badge style tests the lower-cased significance for
the substring `"pathogenic"` before `"benign"` (so a string containing
both gets the destructive style), and a missing or empty significance
renders the outline (default) style with the literal text
`"No Classification"`. -/
theorem classification_badge_precedence (s : String) :
    (strContains (jsToLower s) "pathogenic" = true →
      classificationBadgeStyleE (.str s) = .ok .destructive) ∧
    (strContains (jsToLower s) "pathogenic" = false →
      strContains (jsToLower s) "benign" = true →
      classificationBadgeStyleE (.str s) = .ok .secondary) ∧
    (strContains (jsToLower s) "pathogenic" = false →
      strContains (jsToLower s) "benign" = false →
      classificationBadgeStyleE (.str s) = .ok .outline) ∧
    classificationBadgeStyleE .undefined = .ok .outline ∧
    classificationBadgeText .undefined = .str "No Classification" ∧
    classificationBadgeStyleE (.str "") = .ok .outline ∧
    classificationBadgeText (.str "") = .str "No Classification" := by
  refine ⟨?_, ?_, ?_, rfl, rfl, rfl, rfl⟩
  · intro hp
    simp [classificationBadgeStyleE, sigKeywordTest, hp]
    rfl
  · intro hp hb
    simp [classificationBadgeStyleE, sigKeywordTest, hp, hb]
    rfl
  · intro hp hb
    simp [classificationBadgeStyleE, sigKeywordTest, hp, hb]
    rfl

/-- C10 witness: a significance string containing both keywords receives
the destructive (high-severity) style. -/
theorem classification_badge_precedence_witness :
    strContains (jsToLower "Conflicting: Pathogenic, Likely benign") "pathogenic" = true ∧
    classificationBadgeStyleE (.str "Conflicting: Pathogenic, Likely benign")
      = .ok .destructive := by
  have h : strContains (jsToLower "Conflicting: Pathogenic, Likely benign") "pathogenic"
      = true := by decide
  exact ⟨h, (classification_badge_precedence "Conflicting: Pathogenic, Likely benign").1 h⟩

end NFS

